import Mathlib

/-!
Shallow embedding of `src/components/writing.tsx` (the Stateless timed
writing-session component). The component state is the tuple of its
`useState` hooks; the timer callbacks and event handlers become pure state
transformers. Toast notifications are recorded in an `events` log, since
they are the component's outbound signals. Timestamps are integer
milliseconds (`Date.now()`); `lastKeystroke = 0` is the initial, unset
value, and the source guards on its JavaScript truthiness
(`lastKeystroke && ...`). The float comparison
`(now - lastKeystroke) / 1000 > timeoutSeconds` is embedded as the exact
integer comparison `now - lastKeystroke > timeoutSeconds * 1000`; the two
agree because both operands are integers far below 2^53, so the rounding
of the quotient to a double never moves it across the integer bound.
-/

namespace Stateless

/-- Outbound notifications: one constructor per `toast` call site in the
source (session start, completed end, manual end, inactivity deletion). -/
inductive WEvent where
  | sessionStarted
  | sessionCompleted
  | sessionEnded
  | textDeleted
  deriving DecidableEq

/-- Error kinds named by the specification (§7). The source component
never throws; these values appear only in the spec-side contract
definitions below, which exist to be compared with the source behavior. -/
inductive SessionError where
  | invalidState
  | invalidConfig
  deriving DecidableEq

/-- Component state: one field per `useState` hook of `Writing`
(lines 19-25 of the source), plus the log of emitted toasts. The source
keeps only a boolean `isActive`; the spec's Idle and Ended phases are both
represented by `isActive = false` and are not distinguished by the code. -/
structure WritingState where
  text : String
  isActive : Bool
  sessionTime : Int
  timeRemaining : Int
  lastKeystroke : Int
  timeoutSeconds : Int
  events : List WEvent
  deriving DecidableEq

/-- Inactivity timeout default in seconds (`DEFAULT_TIMEOUT`, line 14). -/
def DEFAULT_TIMEOUT : Int := 7

/-- Minimum session length in minutes (`MIN_SESSION_TIME`, line 15). -/
def MIN_SESSION_TIME : Int := 5

/-- Maximum session length in minutes (`MAX_SESSION_TIME`, line 16). -/
def MAX_SESSION_TIME : Int := 180

/-- Lower bound of the inactivity-timeout slider (`min={3}`, line 162). -/
def TIMEOUT_SLIDER_MIN : Int := 3

/-- Upper bound of the inactivity-timeout slider (`max={15}`, line 163). -/
def TIMEOUT_SLIDER_MAX : Int := 15

/-- Initial hook values (lines 19-25). -/
def initialState : WritingState :=
  { text := "", isActive := false, sessionTime := 15, timeRemaining := 0,
    lastKeystroke := 0, timeoutSeconds := DEFAULT_TIMEOUT, events := [] }

/-- Expiry condition inside `checkTimeout` (lines 36-38): `lastKeystroke`
is truthy (nonzero) and the elapsed time strictly exceeds the timeout.
Times are in milliseconds, so the timeout is scaled by 1000. -/
def checkExpired (now lastKeystroke timeoutSeconds : Int) : Bool :=
  lastKeystroke != 0 && decide (now - lastKeystroke > timeoutSeconds * 1000)

/-- One firing of the inactivity interval (lines 31-47). The interval is
installed only while `isActive` (early return, line 32); on expiry the
callback clears the text and emits the deletion toast (lines 40-41). It
does not modify `lastKeystroke`. -/
def checkTimeout (now : Int) (s : WritingState) : WritingState :=
  if s.isActive then
    if checkExpired now s.lastKeystroke s.timeoutSeconds then
      { s with text := "", events := s.events ++ [WEvent.textDeleted] }
    else s
  else s

/-- `endSession` (lines 86-97): deactivates, clears the interval, and
unconditionally emits one toast (success when `completed`, info
otherwise); there is no phase guard anywhere in the function. -/
def endSession (completed : Bool) (s : WritingState) : WritingState :=
  { s with isActive := false,
           events := s.events ++
             [if completed then WEvent.sessionCompleted else WEvent.sessionEnded] }

/-- One firing of the session-countdown interval (lines 55-64): the
interval exists only while `isActive`; the state updater ends the session
and clamps to 0 when the previous value is at most 1, otherwise it
subtracts exactly 1. The callback receives no timestamp. -/
def sessionTick (s : WritingState) : WritingState :=
  if s.isActive then
    if s.timeRemaining ≤ 1 then
      { endSession true s with timeRemaining := 0 }
    else
      { s with timeRemaining := s.timeRemaining - 1 }
  else s

/-- Iterated firings of the session-countdown interval. -/
def ticks : Nat → WritingState → WritingState
  | 0, s => s
  | n + 1, s => ticks n (sessionTick s)

/-- `startSession` (lines 73-84) combined with the session-timer effect
(lines 50-53), which resets `timeRemaining` to `sessionTime * 60` when its
`isActive` dependency flips to `true`. When the component is already
active, the dependency does not change and the effect does not re-run, so
`timeRemaining` is left alone. `startSession` itself has no phase guard
and cannot fail. -/
def startSession (now : Int) (s : WritingState) : WritingState :=
  let started :=
    { s with
      isActive := true, lastKeystroke := now, text := "",
      events := s.events ++ [WEvent.sessionStarted] }
  if s.isActive then started
  else { started with timeRemaining := started.sessionTime * 60 }

/-- `handleTextChange` (lines 99-102): stores the new text and stamps
`lastKeystroke` with the current time. It has no phase guard; the UI
prevents edits outside a session by unmounting/disabling the textarea. -/
def handleTextChange (newText : String) (now : Int) (s : WritingState) : WritingState :=
  { s with text := newText, lastKeystroke := now }

/-- `onValueChange` of the session-length slider (line 152): stores the
value unconditionally, with no validation and no phase check. -/
def setSessionTime (minutes : Int) (s : WritingState) : WritingState :=
  { s with sessionTime := minutes }

/-- `onValueChange` of the timeout slider (line 166): stores the value
unconditionally, with no validation and no phase check. -/
def setTimeoutSeconds (seconds : Int) (s : WritingState) : WritingState :=
  { s with timeoutSeconds := seconds }

/-- The settings dialog trigger is disabled exactly while a session is
active (`disabled={isActive}`, line 130). -/
def settingsTriggerDisabled (s : WritingState) : Bool :=
  s.isActive

/-- Recognizer for the two session-end toasts (the spec's `SessionEnded`
event, with and without `completed`). -/
def isSessionEndedEvent : WEvent → Bool
  | WEvent.sessionCompleted => true
  | WEvent.sessionEnded => true
  | _ => false

/-- Number of session-end notifications in an event log. -/
def countSessionEnded (evs : List WEvent) : Nat :=
  (evs.filter isSessionEndedEvent).length

/-- Numeric value of a decimal digit character. -/
def digitCharVal (c : Char) : Nat := c.toNat - '0'.toNat

/-- Decimal digit characters of a nonnegative integer, most significant
first; models JavaScript `Number.prototype.toString()` / template
interpolation for a nonnegative integer. -/
def toDecimalDigits (n : Nat) : List Char :=
  if _h : n < 10 then [Nat.digitChar n]
  else toDecimalDigits (n / 10) ++ [Nat.digitChar (n % 10)]
decreasing_by exact Nat.div_lt_self (by omega) (by omega)

/-- Decimal string of a nonnegative integer. -/
def toDecimalString (n : Nat) : String := String.mk (toDecimalDigits n)

/-- JavaScript `String.prototype.padStart(n, c)`: prepend copies of `c`
until the length is at least `n`. -/
def padStart (s : String) (n : Nat) (c : Char) : String :=
  String.mk (List.replicate (n - s.data.length) c ++ s.data)

/-- `formatTime` (lines 104-108): minutes, a colon, and the seconds
left-padded with zeros to two characters. -/
def formatTime (seconds : Nat) : String :=
  let minutes := seconds / 60
  let remainingSeconds := seconds % 60
  toDecimalString minutes ++ ":" ++ padStart (toDecimalString remainingSeconds) 2 '0'

/-- Value of a list of decimal digit characters (leading zeros allowed). -/
def parseDigits (l : List Char) : Nat :=
  l.foldl (fun acc c => acc * 10 + digitCharVal c) 0

/-- Core of `parseTime` on character lists: split at the first colon,
require both sides to be nonempty digit strings, and return
`minutes * 60 + seconds`. -/
def parseTimeChars (l : List Char) : Option Nat :=
  let minutesPart := l.takeWhile (fun c => c != ':')
  match l.dropWhile (fun c => c != ':') with
  | [] => none
  | _ :: secondsPart =>
      if minutesPart ≠ [] ∧ secondsPart ≠ [] ∧
          minutesPart.all Char.isDigit ∧ secondsPart.all Char.isDigit then
        some (parseDigits minutesPart * 60 + parseDigits secondsPart)
      else none

/-- Parse a `"m:ss"`-shaped string back into total seconds. -/
def parseTime (str : String) : Option Nat :=
  parseTimeChars str.data

/-- Following the spec's words (§4.1, `start()` contract): fail with
`InvalidStateError` when already Active, otherwise activate with a full
timer, an empty buffer and a fresh last-edit mark. Present only to be
compared against the source's `startSession`. -/
def startSpec (now : Int) (s : WritingState) : Except SessionError WritingState :=
  if s.isActive then Except.error SessionError.invalidState
  else Except.ok
    { s with
      isActive := true, timeRemaining := s.sessionTime * 60,
      text := "", lastKeystroke := now,
      events := s.events ++ [WEvent.sessionStarted] }

/-- Following the spec's words (§4.1, `editText` contract): fail with
`InvalidStateError` unless Active, otherwise store the text and the
last-edit mark. Present only to be compared against `handleTextChange`. -/
def editTextSpec (newText : String) (now : Int) (s : WritingState) :
    Except SessionError WritingState :=
  if s.isActive then Except.ok { s with text := newText, lastKeystroke := now }
  else Except.error SessionError.invalidState

/-- Following the spec's words (§4.1, `configure` contract): fail with
`InvalidStateError` while Active, with `InvalidConfigError` outside the
bounds [5,180] minutes and [3,15] seconds, otherwise store both settings.
Present only to be compared against the source's unconditional setters. -/
def configureSpec (durationMinutes timeoutSecs : Int) (s : WritingState) :
    Except SessionError WritingState :=
  if s.isActive then Except.error SessionError.invalidState
  else if durationMinutes < MIN_SESSION_TIME ∨ MAX_SESSION_TIME < durationMinutes ∨
      timeoutSecs < TIMEOUT_SLIDER_MIN ∨ TIMEOUT_SLIDER_MAX < timeoutSecs then
    Except.error SessionError.invalidConfig
  else Except.ok { s with sessionTime := durationMinutes, timeoutSeconds := timeoutSecs }

/-- Following the words of claim C2 and spec §4.1 (`tick(now)`): the new
remaining time after decrementing by the elapsed whole seconds since the
previous tick, with a minimum decrement of 1 and clamping at 0. -/
def tickSpecRemaining (prevRemaining elapsedSeconds : Int) : Int :=
  max 0 (prevRemaining - max 1 elapsedSeconds)

/-- Active session holding a draft, last edit at 1000 ms, used to evaluate
the inactivity interval at concrete times. -/
def stateC1 : WritingState :=
  { text := "draft", isActive := true, sessionTime := 15, timeRemaining := 890,
    lastKeystroke := 1000, timeoutSeconds := 7, events := [] }

/-- Active session with 100 seconds remaining. -/
def stateC2 : WritingState :=
  { initialState with isActive := true, timeRemaining := 100 }

/-- Active session holding text, used for the double-`endSession` run. -/
def stateC3 : WritingState :=
  { initialState with isActive := true, text := "words", timeRemaining := 60 }

/-- Active session with 10 seconds remaining out of a 1-minute session. -/
def stateC4 : WritingState :=
  { initialState with isActive := true, sessionTime := 1, timeRemaining := 10 }

/-- Active session holding text, used against the `start()` contract. -/
def stateC6 : WritingState :=
  { initialState with
    isActive := true, text := "hello", lastKeystroke := 5,
    timeRemaining := 300 }

/-- Active session used to witness the `editText` happy path. -/
def stateC7 : WritingState :=
  { initialState with isActive := true, lastKeystroke := 3, timeRemaining := 200 }

/-- Active session on its last remaining second, holding text. -/
def stateC8 : WritingState :=
  { initialState with isActive := true, text := "keep me", timeRemaining := 1 }

/-- Active session with plenty of time remaining, holding text, used for
the explicit end-while-time-remains path. -/
def stateC8b : WritingState :=
  { initialState with isActive := true, text := "long draft", timeRemaining := 890 }

/-- Active session used against the `configure` contract. -/
def stateC9 : WritingState :=
  { initialState with isActive := true, timeRemaining := 100 }

theorem sessionTick_sessionTime (s : WritingState) :
    (sessionTick s).sessionTime = s.sessionTime := by
  unfold sessionTick endSession
  split_ifs <;> rfl

theorem sessionTick_nonneg (s : WritingState) (h : 0 ≤ s.timeRemaining) :
    0 ≤ (sessionTick s).timeRemaining := by
  unfold sessionTick endSession
  split_ifs <;> (try dsimp) <;> omega

theorem sessionTick_le (s : WritingState) (h : 0 ≤ s.timeRemaining) :
    (sessionTick s).timeRemaining ≤ s.timeRemaining := by
  unfold sessionTick endSession
  split_ifs <;> (try dsimp) <;> omega

theorem ticks_add (m k : Nat) (s : WritingState) :
    ticks (m + k) s = ticks k (ticks m s) := by
  induction m generalizing s with
  | zero =>
      rw [Nat.zero_add]
      rfl
  | succ m ih =>
      rw [Nat.add_right_comm]
      show ticks (m + k) (sessionTick s) = ticks k (ticks (m + 1) s)
      rw [ih (sessionTick s)]
      rfl

theorem ticks_nonneg (n : Nat) (s : WritingState) (h : 0 ≤ s.timeRemaining) :
    0 ≤ (ticks n s).timeRemaining := by
  induction n generalizing s with
  | zero => exact h
  | succ n ih => exact ih (sessionTick s) (sessionTick_nonneg s h)

theorem ticks_le (n : Nat) (s : WritingState) (h : 0 ≤ s.timeRemaining) :
    (ticks n s).timeRemaining ≤ s.timeRemaining := by
  induction n generalizing s with
  | zero => exact le_refl _
  | succ n ih =>
      exact le_trans (ih (sessionTick s) (sessionTick_nonneg s h)) (sessionTick_le s h)

/-- C4: across any sequence of session-countdown ticks applied while the
phase is Active, `timeRemaining` is non-increasing and always stays within
`[0, sessionTime * 60]` — in particular it never becomes negative. -/
theorem ticks_remaining_invariant (s : WritingState) (n m : Nat)
    (hmn : m ≤ n) (_hA : s.isActive = true) (h0 : 0 ≤ s.timeRemaining)
    (hD : s.timeRemaining ≤ s.sessionTime * 60) :
    (ticks n s).timeRemaining ≤ (ticks m s).timeRemaining ∧
    0 ≤ (ticks n s).timeRemaining ∧
    (ticks n s).timeRemaining ≤ s.sessionTime * 60 := by
  obtain ⟨k, rfl⟩ := Nat.exists_eq_add_of_le hmn
  rw [ticks_add m k s]
  refine ⟨ticks_le k _ (ticks_nonneg m s h0), ticks_nonneg k _ (ticks_nonneg m s h0), ?_⟩
  exact le_trans (le_trans (ticks_le k _ (ticks_nonneg m s h0)) (ticks_le m s h0)) hD

/-- Witness for C4 at `stateC4` with `m = 1`, `n = 3`. -/
theorem ticks_remaining_invariant_witness :
    (ticks 3 stateC4).timeRemaining ≤ (ticks 1 stateC4).timeRemaining ∧
    0 ≤ (ticks 3 stateC4).timeRemaining ∧
    (ticks 3 stateC4).timeRemaining ≤ stateC4.sessionTime * 60 :=
  ticks_remaining_invariant stateC4 3 1 (by decide) rfl (by decide) (by decide)

/-- C2 (amended): while Active, each firing of the session-countdown
interval decrements `timeRemaining` by exactly 1, independent of any
elapsed wall-clock time (the callback receives no timestamp); when the
previous value is at most 1 it clamps to 0 and invokes
`endSession(completed := true)`; outside Active no tick occurs. -/
theorem sessionTick_decrements_by_one (s : WritingState) :
    (s.isActive = true →
      (1 < s.timeRemaining →
        (sessionTick s).timeRemaining = s.timeRemaining - 1 ∧
        (sessionTick s).isActive = true ∧
        (sessionTick s).text = s.text ∧
        (sessionTick s).events = s.events) ∧
      (s.timeRemaining ≤ 1 →
        (sessionTick s).timeRemaining = 0 ∧
        (sessionTick s).isActive = false ∧
        (sessionTick s).text = s.text ∧
        (sessionTick s).events = s.events ++ [WEvent.sessionCompleted])) ∧
    (s.isActive = false → sessionTick s = s) := by
  constructor
  · intro hA
    constructor
    · intro h1
      have h2 : ¬ s.timeRemaining ≤ 1 := not_le.mpr h1
      simp [sessionTick, hA, h2]
    · intro h1
      simp [sessionTick, endSession, hA, h1]
  · intro hI
    simp [sessionTick, hI]

/-- Witness for C2's amended theorem at `stateC2` (active, 100 s left). -/
theorem sessionTick_decrements_by_one_witness :
    (sessionTick stateC2).timeRemaining = stateC2.timeRemaining - 1 ∧
    (sessionTick stateC2).isActive = true ∧
    (sessionTick stateC2).text = stateC2.text ∧
    (sessionTick stateC2).events = stateC2.events :=
  ((sessionTick_decrements_by_one stateC2).1 rfl).1 (by decide)

/-- C2 counterexample: the claim's tick decrements by the elapsed whole
seconds since the previous tick (minimum 1); the code's callback has no
time input and always subtracts 1. At `stateC2` (100 s remaining) with 3
elapsed seconds, the claim requires 97 but the code leaves 99. -/
theorem sessionTick_ignores_elapsed_counterexample :
    (sessionTick stateC2).timeRemaining = 99 ∧
    tickSpecRemaining stateC2.timeRemaining 3 = 97 ∧
    (sessionTick stateC2).timeRemaining ≠ tickSpecRemaining stateC2.timeRemaining 3 := by
  decide

/-- C3 (amended): a second `endSession` with no `startSession` in between
raises no error and leaves the text, activity flag, timer and last-edit
mark unchanged, but each call appends a session-end toast: two calls emit
two `SessionEnded` notifications in total, because `endSession` has no
phase guard on the notification. -/
theorem endSession_idempotent_state_double_event (s : WritingState) (c₁ c₂ : Bool) :
    (endSession c₂ (endSession c₁ s)).text = (endSession c₁ s).text ∧
    (endSession c₂ (endSession c₁ s)).isActive = (endSession c₁ s).isActive ∧
    (endSession c₂ (endSession c₁ s)).timeRemaining = (endSession c₁ s).timeRemaining ∧
    (endSession c₂ (endSession c₁ s)).lastKeystroke = (endSession c₁ s).lastKeystroke ∧
    countSessionEnded (endSession c₂ (endSession c₁ s)).events =
      countSessionEnded s.events + 2 := by
  cases c₁ <;> cases c₂ <;>
    simp [endSession, countSessionEnded, isSessionEndedEvent, List.filter_append]

/-- C3 counterexample: at `stateC3`, the timer's `endSession(true)`
followed by the user's `endSession()` emits two session-end toasts, not
exactly one as the claim states. -/
theorem endSession_double_toast_counterexample :
    countSessionEnded (endSession false (endSession true stateC3)).events = 2 ∧
    countSessionEnded (endSession false (endSession true stateC3)).events ≠ 1 := by
  decide

/-- C5: `checkExpired` is true iff the last-edit mark is set (nonzero) and
the elapsed time strictly exceeds the timeout; it is false at the exact
boundary (elapsed equal to the timeout), true one further second past it,
and false whenever the mark is unset. Times are in milliseconds, so the
timeout in seconds scales by 1000. -/
theorem checkExpired_strict_boundary (now lastEditAt t : Int) (hset : lastEditAt ≠ 0) :
    (checkExpired now lastEditAt t = true ↔
      lastEditAt ≠ 0 ∧ now - lastEditAt > t * 1000) ∧
    checkExpired (lastEditAt + t * 1000) lastEditAt t = false ∧
    checkExpired (lastEditAt + (t + 1) * 1000) lastEditAt t = true ∧
    checkExpired now 0 t = false := by
  refine ⟨?_, ?_, ?_, ?_⟩
  · simp [checkExpired, Bool.and_eq_true, bne_iff_ne, decide_eq_true_eq]
  · have hb : ¬ (lastEditAt + t * 1000 - lastEditAt > t * 1000) := by omega
    simp [checkExpired, hb]
  · have hb : lastEditAt + (t + 1) * 1000 - lastEditAt > t * 1000 := by omega
    simp [checkExpired, bne_iff_ne, hset, hb]
  · simp [checkExpired]

/-- Witness for C5 at `lastEditAt = 1000`, `t = 7`, `now = 9001`. -/
theorem checkExpired_strict_boundary_witness :
    (checkExpired 9001 1000 7 = true ↔ (1000 : Int) ≠ 0 ∧ (9001 : Int) - 1000 > 7 * 1000) ∧
    checkExpired (1000 + 7 * 1000) 1000 7 = false ∧
    checkExpired (1000 + (7 + 1) * 1000) 1000 7 = true ∧
    checkExpired 9001 0 7 = false :=
  checkExpired_strict_boundary 9001 1000 7 (by decide)

/-- C1: evaluation of the code at the failing input. With the last edit at
1000 ms and a 7-second timeout, the inactivity tick at 9001 ms clears the
text but leaves `lastKeystroke` at 1000 — it is not reset to the tick
time — so the next tick at 10001 ms, before any new 7-second window past a
reset mark could elapse, signals erasure again: two deletion toasts. -/
theorem checkTimeout_fires_every_tick_after_expiry :
    (checkTimeout 9001 stateC1).text = "" ∧
    (checkTimeout 9001 stateC1).lastKeystroke = 1000 ∧
    (checkTimeout 9001 stateC1).isActive = true ∧
    (checkTimeout 10001 (checkTimeout 9001 stateC1)).events =
      [WEvent.textDeleted, WEvent.textDeleted] := by
  decide

/-- C6 (amended): `startSession` performs no phase check and cannot fail.
From an inactive state it activates with a full timer, an empty buffer and
`lastKeystroke = now`; invoked while already active it still clears the
buffer and resets `lastKeystroke`, and leaves `timeRemaining` alone
because the timer effect re-runs only when `isActive` changes. -/
theorem startSession_effects (now : Int) (s : WritingState) :
    (s.isActive = false →
      (startSession now s).isActive = true ∧
      (startSession now s).timeRemaining = s.sessionTime * 60 ∧
      (startSession now s).text = "" ∧
      (startSession now s).lastKeystroke = now) ∧
    (s.isActive = true →
      (startSession now s).isActive = true ∧
      (startSession now s).text = "" ∧
      (startSession now s).lastKeystroke = now ∧
      (startSession now s).timeRemaining = s.timeRemaining) := by
  constructor
  · intro hI
    simp [startSession, hI]
  · intro hA
    simp [startSession, hA]

/-- Witness for C6's amended theorem: starting from the initial state. -/
theorem startSession_effects_witness :
    (startSession 42 initialState).isActive = true ∧
    (startSession 42 initialState).timeRemaining = initialState.sessionTime * 60 ∧
    (startSession 42 initialState).text = "" ∧
    (startSession 42 initialState).lastKeystroke = 42 :=
  (startSession_effects 42 initialState).1 rfl

/-- C6 counterexample: the claim says `start()` fails with
`InvalidStateError` while Active. The spec-side contract indeed fails at
`stateC6`, but the source's `startSession` has no failure path there: it
changes the state, clearing the buffer and resetting the last-edit mark. -/
theorem startSession_no_error_counterexample :
    startSpec 10 stateC6 = Except.error SessionError.invalidState ∧
    startSession 10 stateC6 ≠ stateC6 ∧
    (startSession 10 stateC6).text = "" ∧
    (startSession 10 stateC6).lastKeystroke = 10 :=
  ⟨rfl, by decide, rfl, rfl⟩

/-- C7 (amended): `handleTextChange` has no phase guard and cannot fail:
in every phase it stores the new text and stamps `lastKeystroke`, leaving
the activity flag, timer and event log unchanged; while Active this
agrees with the success case of the spec's `editText` contract. -/
theorem handleTextChange_effects (newText : String) (now : Int) (s : WritingState) :
    (handleTextChange newText now s).text = newText ∧
    (handleTextChange newText now s).lastKeystroke = now ∧
    (handleTextChange newText now s).isActive = s.isActive ∧
    (handleTextChange newText now s).timeRemaining = s.timeRemaining ∧
    (handleTextChange newText now s).events = s.events ∧
    (s.isActive = true →
      editTextSpec newText now s = Except.ok (handleTextChange newText now s)) := by
  refine ⟨rfl, rfl, rfl, rfl, rfl, ?_⟩
  intro hA
  simp [editTextSpec, handleTextChange, hA]

/-- Witness for C7's amended theorem at the active state `stateC7`. -/
theorem handleTextChange_effects_witness :
    (handleTextChange "abc" 77 stateC7).text = "abc" ∧
    editTextSpec "abc" 77 stateC7 = Except.ok (handleTextChange "abc" 77 stateC7) :=
  ⟨(handleTextChange_effects "abc" 77 stateC7).1,
    (handleTextChange_effects "abc" 77 stateC7).2.2.2.2.2 rfl⟩

/-- C7 counterexample: called while the phase is Idle (`initialState`),
the claim demands `InvalidStateError` with the state unchanged; the
spec-side contract fails there, but the source's `handleTextChange`
succeeds and mutates the state. -/
theorem handleTextChange_no_phase_guard_counterexample :
    editTextSpec "hi" 50 initialState = Except.error SessionError.invalidState ∧
    (handleTextChange "hi" 50 initialState).text = "hi" ∧
    handleTextChange "hi" 50 initialState ≠ initialState :=
  ⟨rfl, rfl, by decide⟩

/-- C8: ending a session — whether by the countdown reaching zero
(`completed = true`) or by an explicit `endSession()` call at any
remaining time — deactivates the session and leaves the text untouched:
session termination never deletes text. The `endSession` conjunct holds
for every state, in particular with arbitrary time remaining; the
countdown conjunct is the tick that reaches zero. -/
theorem session_end_preserves_text (s : WritingState) (completed : Bool) :
    ((endSession completed s).text = s.text ∧ (endSession completed s).isActive = false) ∧
    (s.isActive = true → s.timeRemaining ≤ 1 →
      (sessionTick s).text = s.text ∧ (sessionTick s).isActive = false ∧
      (sessionTick s).timeRemaining = 0 ∧
      (sessionTick s).events = s.events ++ [WEvent.sessionCompleted]) := by
  refine ⟨⟨rfl, rfl⟩, ?_⟩
  intro hA hz
  simp [sessionTick, endSession, hA, hz]

/-- Witness for C8: an explicit end at `stateC8b` (active, 890 s still
remaining) preserves the text, and the countdown tick at `stateC8`
(active, 1 s remaining) ends the session with the text intact. -/
theorem session_end_preserves_text_witness :
    ((endSession false stateC8b).text = stateC8b.text ∧
      (endSession false stateC8b).isActive = false) ∧
    ((sessionTick stateC8).text = stateC8.text ∧
      (sessionTick stateC8).isActive = false ∧
      (sessionTick stateC8).timeRemaining = 0 ∧
      (sessionTick stateC8).events = stateC8.events ++ [WEvent.sessionCompleted]) :=
  ⟨(session_end_preserves_text stateC8b false).1,
    (session_end_preserves_text stateC8 false).2 rfl (by decide)⟩

/-- C9 (amended): the component performs no validation and raises no
errors when storing settings: the slider handlers store any value in any
phase. Mid-session reconfiguration is prevented only by the disabled
settings trigger, and the bounds [5,180] minutes and [3,15] seconds are
enforced only as slider endpoints; within those bounds and outside an
active session the stored result agrees with the spec's `configure`
contract. -/
theorem settings_behavior (v t : Int) (s : WritingState) :
    (setSessionTime v s).sessionTime = v ∧
    (setSessionTime v s).isActive = s.isActive ∧
    (setSessionTime v s).text = s.text ∧
    (setTimeoutSeconds t s).timeoutSeconds = t ∧
    settingsTriggerDisabled s = s.isActive ∧
    (s.isActive = false → MIN_SESSION_TIME ≤ v → v ≤ MAX_SESSION_TIME →
      TIMEOUT_SLIDER_MIN ≤ t → t ≤ TIMEOUT_SLIDER_MAX →
      configureSpec v t s = Except.ok (setTimeoutSeconds t (setSessionTime v s))) := by
  refine ⟨rfl, rfl, rfl, rfl, rfl, ?_⟩
  intro hI h1 h2 h3 h4
  have hb : ¬ (v < MIN_SESSION_TIME ∨ MAX_SESSION_TIME < v ∨
      t < TIMEOUT_SLIDER_MIN ∨ TIMEOUT_SLIDER_MAX < t) := by
    push_neg
    exact ⟨h1, h2, h3, h4⟩
  simp [configureSpec, hI, hb, setSessionTime, setTimeoutSeconds]

/-- Witness for C9's amended theorem at the idle initial state with
in-range values 20 minutes and 7 seconds. -/
theorem settings_behavior_witness :
    (setSessionTime 20 initialState).sessionTime = 20 ∧
    configureSpec 20 7 initialState =
      Except.ok (setTimeoutSeconds 7 (setSessionTime 20 initialState)) :=
  ⟨(settings_behavior 20 7 initialState).1,
    (settings_behavior 20 7 initialState).2.2.2.2.2 rfl (by decide) (by decide)
      (by decide) (by decide)⟩

/-- C9 counterexample: the spec-side contract rejects a 2-minute duration
(`InvalidConfigError`) and any mid-session change (`InvalidStateError`),
but the source setters store both values without any error. -/
theorem settings_no_validation_counterexample :
    configureSpec 2 7 initialState = Except.error SessionError.invalidConfig ∧
    (setSessionTime 2 initialState).sessionTime = 2 ∧
    configureSpec 20 7 stateC9 = Except.error SessionError.invalidState ∧
    (setSessionTime 20 stateC9).sessionTime = 20 :=
  ⟨rfl, rfl, rfl, rfl⟩

theorem strData_append (a b : String) : (a ++ b).data = a.data ++ b.data := by
  cases a
  cases b
  rfl

theorem digitChar_isDigit : ∀ d : Nat, d < 10 → (Nat.digitChar d).isDigit = true := by
  decide

theorem digitCharVal_digitChar : ∀ d : Nat, d < 10 → digitCharVal (Nat.digitChar d) = d := by
  decide

theorem isDigit_ne_colon (c : Char) (h : c.isDigit = true) : (c != ':') = true := by
  simp only [bne_iff_ne, ne_eq]
  intro hc
  subst hc
  exact absurd h (by decide)

theorem toDecimalDigits_ne_nil (n : Nat) : toDecimalDigits n ≠ [] := by
  rw [toDecimalDigits]
  by_cases h : n < 10
  · rw [dif_pos h]
    simp
  · rw [dif_neg h]
    simp

theorem toDecimalDigits_all_digits (n : Nat) :
    ∀ c ∈ toDecimalDigits n, c.isDigit = true := by
  induction n using Nat.strong_induction_on with
  | _ n ih =>
      rw [toDecimalDigits]
      by_cases h : n < 10
      · rw [dif_pos h]
        intro c hc
        simp only [List.mem_singleton] at hc
        subst hc
        exact digitChar_isDigit n h
      · rw [dif_neg h]
        intro c hc
        rw [List.mem_append] at hc
        rcases hc with hc | hc
        · exact ih (n / 10) (Nat.div_lt_self (by omega) (by omega)) c hc
        · simp only [List.mem_singleton] at hc
          subst hc
          exact digitChar_isDigit (n % 10) (Nat.mod_lt n (by norm_num))

theorem toDecimalDigits_length_le_two (n : Nat) (h : n < 100) :
    (toDecimalDigits n).length ≤ 2 := by
  rw [toDecimalDigits]
  by_cases h10 : n < 10
  · rw [dif_pos h10]
    simp
  · rw [dif_neg h10]
    rw [toDecimalDigits]
    have hq : n / 10 < 10 := by omega
    rw [dif_pos hq]
    simp

theorem parseDigits_toDecimalDigits (n : Nat) :
    parseDigits (toDecimalDigits n) = n := by
  induction n using Nat.strong_induction_on with
  | _ n ih =>
      rw [toDecimalDigits]
      by_cases h : n < 10
      · rw [dif_pos h]
        simp [parseDigits, digitCharVal_digitChar n h]
      · rw [dif_neg h]
        have h10 : n / 10 < n := Nat.div_lt_self (by omega) (by omega)
        have ihq := ih (n / 10) h10
        have hm : n % 10 < 10 := Nat.mod_lt n (by norm_num)
        simp only [parseDigits, List.foldl_append, List.foldl_cons, List.foldl_nil] at ihq ⊢
        rw [ihq, digitCharVal_digitChar (n % 10) hm]
        omega

theorem parseDigits_cons_zero (l : List Char) :
    parseDigits ('0' :: l) = parseDigits l := by
  simp [parseDigits, digitCharVal]

theorem parseDigits_replicate_zero (k : Nat) (l : List Char) :
    parseDigits (List.replicate k '0' ++ l) = parseDigits l := by
  induction k with
  | zero => rfl
  | succ k ih =>
      rw [List.replicate_succ, List.cons_append, parseDigits_cons_zero]
      exact ih

theorem takeWhile_append_of_all (p : Char → Bool) (l1 l2 : List Char) (x : Char)
    (h1 : ∀ c ∈ l1, p c = true) (hx : p x = false) :
    (l1 ++ x :: l2).takeWhile p = l1 ∧ (l1 ++ x :: l2).dropWhile p = x :: l2 := by
  induction l1 with
  | nil =>
      simp [List.takeWhile, List.dropWhile, hx]
  | cons a l ih =>
      have ha : p a = true := h1 a (by simp)
      have ih2 := ih (fun c hc => h1 c (by simp [hc]))
      simp [List.takeWhile, List.dropWhile, ha, ih2.1, ih2.2]

theorem parseTimeChars_split (dm pad : List Char) (hdm_ne : dm ≠ []) (hpad_ne : pad ≠ [])
    (hdm_dig : ∀ c ∈ dm, c.isDigit = true) (hpad_dig : ∀ c ∈ pad, c.isDigit = true) :
    parseTimeChars (dm ++ ':' :: pad) = some (parseDigits dm * 60 + parseDigits pad) := by
  have h1 : ∀ c ∈ dm, (c != ':') = true := fun c hc => isDigit_ne_colon c (hdm_dig c hc)
  have hx : ((':' : Char) != ':') = false := by decide
  obtain ⟨htake, hdrop⟩ := takeWhile_append_of_all (fun c => c != ':') dm pad ':' h1 hx
  have hall_dm : dm.all Char.isDigit = true := by
    rw [List.all_eq_true]
    exact hdm_dig
  have hall_pad : pad.all Char.isDigit = true := by
    rw [List.all_eq_true]
    exact hpad_dig
  simp only [parseTimeChars, htake, hdrop]
  rw [if_pos]
  exact ⟨hdm_ne, hpad_ne, hall_dm, hall_pad⟩

/-- C10: for every nonnegative integer `s`, `formatTime s` is the decimal
minutes, a colon, and the seconds zero-padded to exactly two characters,
and parsing it back as `minutes * 60 + seconds` recovers `s`. -/
theorem formatTime_roundTrip (s : Nat) :
    parseTime (formatTime s) = some s ∧
    (padStart (toDecimalString (s % 60)) 2 '0').data.length = 2 := by
  have hm60 : s % 60 < 60 := Nat.mod_lt s (by norm_num)
  have hlen : (toDecimalDigits (s % 60)).length ≤ 2 :=
    toDecimalDigits_length_le_two (s % 60) (by omega)
  constructor
  · have hdata : (formatTime s).data =
        toDecimalDigits (s / 60) ++ ':' ::
          (List.replicate (2 - (toDecimalDigits (s % 60)).length) '0' ++
            toDecimalDigits (s % 60)) := by
      simp [formatTime, toDecimalString, padStart, strData_append]
    rw [parseTime, hdata, parseTimeChars_split]
    · rw [parseDigits_replicate_zero, parseDigits_toDecimalDigits,
        parseDigits_toDecimalDigits]
      congr 1
      omega
    · exact toDecimalDigits_ne_nil _
    · intro hnil
      exact toDecimalDigits_ne_nil (s % 60) (List.append_eq_nil.mp hnil).2
    · exact toDecimalDigits_all_digits _
    · intro c hc
      rw [List.mem_append] at hc
      rcases hc with hc | hc
      · have : c = '0' := List.eq_of_mem_replicate hc
        subst this
        decide
      · exact toDecimalDigits_all_digits (s % 60) c hc
  · simp only [padStart, toDecimalString, List.length_append, List.length_replicate]
    omega

end Stateless
